import Mathlib

set_option autoImplicit false
set_option maxRecDepth 100000

/-!
Shallow embedding of the interview-orchestration core of the
`expertbridge-interviewer` repository: the dialogue state machine
(`src/src/core/brain.py`, class `Brain`) and the turn orchestrator
(`src/src/core/orchestrator.py`, class `Orchestrator`).

Network calls to the text-generation service are abstracted as an
explicit environment (`ModelEnv`) mapping a model identifier and the
request messages to a result; everything else (keyword matching, the
fallback loop, state updates, aggregation) is translated directly from
the Python source.
-/

namespace EB

/-- Character-list prefix test (`needle` is a prefix of the second list). -/
def isPrefixOfCL : List Char → List Char → Bool
  | [], _ => true
  | _ :: _, [] => false
  | a :: as, b :: bs => a == b && isPrefixOfCL as bs

/-- Character-list substring test: does the haystack contain `needle`? -/
def containsCL (needle : List Char) : List Char → Bool
  | [] => isPrefixOfCL needle []
  | c :: rest => isPrefixOfCL needle (c :: rest) || containsCL needle rest

/-- Python's `needle in hay` substring test on strings. -/
def strContains (hay needle : String) : Bool :=
  containsCL needle.toList hay.toList

/-- Python's `str.lower()` (ASCII case folding). -/
def strLower (s : String) : String := String.mk (s.data.map Char.toLower)

/-- Drop leading whitespace characters. -/
def dropLeadingWS : List Char → List Char
  | [] => []
  | c :: rest => if c.isWhitespace then dropLeadingWS rest else c :: rest

/-- Python's `str.lstrip()`. -/
def pyLStrip (s : String) : String := String.mk (dropLeadingWS s.data)

/-- Python's `str.strip()`. -/
def pyStrip (s : String) : String :=
  String.mk ((dropLeadingWS (dropLeadingWS s.data).reverse).reverse)

/-- Python's `str.startswith(pre)`. -/
def strStartsWith (s pre : String) : Bool := isPrefixOfCL pre.toList s.toList

/-- `Brain.detect_abuse` keyword list (brain.py line 425). -/
def abuse_keywords : List String :=
  ["stupid", "idiot", "fuck", "shit", "asshole", "dumb", "moron", "retard", "bitch", "shut up"]

/-- `Brain.detect_abuse` (brain.py lines 423-427): empty input is never
abusive; otherwise case-insensitive substring match against the keyword list. -/
def detect_abuse (user_input : String) : Bool :=
  if user_input = "" then false
  else abuse_keywords.any (fun keyword => strContains (strLower user_input) keyword)

/-- A score record as produced by `Brain.analyze_answer` / the fixed records in
`Brain.handle_user_input`.  Python dicts with differing key sets are modelled by
optional fields (a missing key is `none`). -/
structure Analysis where
  depth_score : Nat
  thinking_score : Nat
  fit_score : Nat
  overall_score : Nat
  depth_reasoning : Option String := none
  thinking_reasoning : Option String := none
  fit_reasoning : Option String := none
  red_flags : List String := []
  key_strengths : List String := []
  suggested_follow_up : Option String := none
  note : Option String := none
deriving DecidableEq, Repr

/-- `Brain._get_empty_analysis` (brain.py lines 416-421). -/
def get_empty_analysis : Analysis :=
  { depth_score := 3, thinking_score := 3, fit_score := 3, overall_score := 60,
    depth_reasoning := some "N/A", thinking_reasoning := some "N/A",
    fit_reasoning := some "N/A", red_flags := [], key_strengths := [],
    suggested_follow_up := some "Continue" }

/-- Result of one chat-completions call: a response text or a raised
exception carrying its message string. -/
inductive CallResult where
  | ok (text : String)
  | err (msg : String)
deriving DecidableEq, Repr

/-- A chat message: (role, content). -/
abbrev Msg := String × String

/-- Which request shape a call used (standard = temperature + max_tokens;
reduced = the O1/reasoning retry without them). -/
inductive CallShape where
  | standard
  | reduced
deriving DecidableEq, Repr

/-- Abstraction of the external services touched by the Brain: each field
models one network call site as a pure function of the model id and request
content.  `analysisCall` folds together the JSON-mode scoring call and the
parse of its body (`none` = exception, empty content or JSON parse failure);
`jsonExtract` models `json.loads(...).get("response_text", ...)` (`none` =
parse failure or missing key); `closingCall` models the one-shot
closing-message call (`none` = exception); `analysisModelEnvVar` models the
`AZURE_OPENAI_ANALYSIS_MODEL` environment variable; `listModelsStr` models
the formatted `client.models.list()` diagnostic text. -/
structure ModelEnv where
  standardCall : String → List Msg → CallResult
  reducedCall : String → List Msg → CallResult
  analysisCall : String → String → Option Analysis
  jsonExtract : String → Option String
  closingCall : String → Option String
  analysisModelEnvVar : Option String
  listModelsStr : String

/-- The mutable Brain state (brain.py `__init__`, lines 37-48).
`job_context_str` holds the serialized job context injected into prompts
(`json.dumps` of an opaque dict, modelled as pre-rendered text). -/
structure BrainState where
  provider : String
  deployment_name : String
  interview_strategy : String := ""
  job_context_str : Option String := none
  conversation_history : List Msg := []
  interview_phase : String := "OPENING"
  strike_count : Nat := 0
  question_count : Nat := 0
  last_error : Option String := none
deriving DecidableEq, Repr

/-- Substrings that mark an unsupported-parameter error
(brain.py line 187). -/
def param_error_markers : List String := ["unsupported", "parameter", "max_tokens"]

/-- The error-shape sniff on `str(std_err).lower()` (brain.py lines 186-187). -/
def isParamError (e : String) : Bool :=
  param_error_markers.any (fun marker => strContains (strLower e) marker)

/-- The hard-coded Azure fallback deployments (brain.py lines 155-164). -/
def fallback_models : List String :=
  ["gpt4-extract-updated", "gpt4-extract-1", "gpt-4o-mini-query-generation",
   "gpt5-mini-core", "gpt-4o", "gpt-4o-mini", "gpt-4", "gpt-35-turbo"]

/-- `model_to_use` selection (brain.py lines 149-151): standard OpenAI is
forced to gpt-4o-mini, Azure uses the configured deployment. -/
def model_to_use (st : BrainState) : String :=
  if st.provider = "openai" then "gpt-4o-mini" else st.deployment_name

/-- `check_models` (brain.py line 169): the configured model first, then the
fallback list with that model filtered out. -/
def check_models (mtu : String) : List String :=
  mtu :: fallback_models.filter (fun m => m ≠ mtu)

/-- Observable outcome of the candidate loop in
`Brain.generate_spoken_response` (brain.py lines 171-212): the winning
(model, text) pair if any, the accumulated `error_log`, the candidates
attempted in order, and every individual call made. -/
structure LoopResult where
  winner : Option (String × String)
  error_log : List String
  attempted : List String
  events : List (String × CallShape)
deriving DecidableEq, Repr

/-- The candidate loop (brain.py lines 174-212): for each candidate try the
standard call; on an unsupported-parameter error retry the same candidate
with the reduced call; any other error (or a failed retry) is appended to
`error_log` and the loop advances; the first response wins and stops the loop. -/
def runCandidates (env : ModelEnv) (messages : List Msg) : List String → LoopResult
  | [] => ⟨none, [], [], []⟩
  | m :: rest =>
    match env.standardCall m messages with
    | .ok t => ⟨some (m, t), [], [m], [(m, .standard)]⟩
    | .err e =>
      if isParamError e then
        match env.reducedCall m messages with
        | .ok t => ⟨some (m, t), [], [m], [(m, .standard), (m, .reduced)]⟩
        | .err e2 =>
          let r := runCandidates env messages rest
          ⟨r.winner, (m ++ ": " ++ e2) :: r.error_log, m :: r.attempted,
           (m, .standard) :: (m, .reduced) :: r.events⟩
      else
        let r := runCandidates env messages rest
        ⟨r.winner, (m ++ ": " ++ e) :: r.error_log, m :: r.attempted,
         (m, .standard) :: r.events⟩

/-- The fallback instruction for any question count outside 0-7
(brain.py line 281, the `.get` default). -/
def final_question_fallback : String :=
  "[CRITICAL INSTRUCTION] Keep it brief, ask one final specific question."

/-- `Brain._get_dynamic_topic_instruction` (brain.py lines 267-281): the fixed
8-slot topic plan keyed by the current question count, with a generic
final-question fallback for any other index. -/
def get_dynamic_topic_instruction (question_count : Nat) : String :=
  if question_count = 0 then
    "[CRITICAL INSTRUCTION FOR NEXT QUESTION] We are on TOPIC 1 (PROJECT / EXPERIENCE ROLE). Ask Question 1 (Overview). Start with a brief neutral/positive reaction to their opening (if any), then ask exactly ONE question about the high-level aim and their specific role in their main project or experience. DO NOT ask multi-part questions."
  else if question_count = 1 then
    "[CRITICAL INSTRUCTION FOR NEXT QUESTION] We are on TOPIC 1 (PROJECT / EXPERIENCE ROLE). Ask Question 2 (Deep Dive). First, react appropriately to their answer (praise if good, neutral if vague/don't know). Then, ask ONE deep dive question about technical specifics, architecture, or trade-offs for this SAME project or experience."
  else if question_count = 2 then
    "[CRITICAL INSTRUCTION FOR NEXT QUESTION] We MUST now MOVE ON to TOPIC 2 (PROFILE/RESUME EXPERIENCE 1). React to their last answer. Then, ask Question 1 (Overview) about A COMPLETELY DIFFERENT skill, role, or experience from their background/resume. DO NOT mention the previous project/experience."
  else if question_count = 3 then
    "[CRITICAL INSTRUCTION FOR NEXT QUESTION] We are on TOPIC 2 (PROFILE/RESUME EXPERIENCE 1). Ask Question 2 (Technical Dive). React appropriately, then ask ONE technical follow-up or challenge about the specific topic you just introduced."
  else if question_count = 4 then
    "[CRITICAL INSTRUCTION FOR NEXT QUESTION] We MUST now MOVE ON to TOPIC 3 (PROFILE/RESUME EXPERIENCE 2). React to their last answer. Then, ask Question 1 (Overview) about YET ANOTHER COMPLETELY DIFFERENT experience or project from their resume. DO NOT revert to any previous projects discussed."
  else if question_count = 5 then
    "[CRITICAL INSTRUCTION FOR NEXT QUESTION] We are on TOPIC 3 (PROFILE/RESUME EXPERIENCE 2). Ask Question 2 (Trade-offs/Challenges). React appropriately, then ask ONE question about specific challenges or trade-offs regarding this third topic."
  else if question_count = 6 then
    "[CRITICAL INSTRUCTION FOR NEXT QUESTION] We MUST now MOVE ON to TOPIC 4 (CULTURE & VALUES). React to their answer. Then, ask Question 1 (Scenario). Ask ONE behavioral or scenario-based question about ethics, team conflict, or work culture."
  else if question_count = 7 then
    "[CRITICAL INSTRUCTION FOR NEXT QUESTION] We are on TOPIC 4 (CULTURE & VALUES). Ask Question 2 (Reflection). React appropriately, then ask ONE reflective question about what they learned from that scenario or how it shapes their work today."
  else final_question_fallback

/-- `Brain._get_static_system_prompt` (brain.py lines 310-342): the fixed
interviewer persona and protocol prompt, verbatim. -/
def static_system_prompt : String :=
  "You are a professional expert interviewer conducting a HIGH-SIGNAL CAPABILITY ASSESSMENT.\n\nYOUR ROLE:\nEvaluate whether this expert has the depth of real-world knowledge, structured thinking, and execution maturity to advise clients on complex projects. You will deeply cover their Resume, Profile Experience, Project Roles, and Culture.\n\nSTRICT PROTOCOL (THE 2-QUESTION RULE):\nYou must STRICTLY follow the 4-topic progression below.\nFor EACH topic, you must ask EXACTLY TWO questions (One by one). The two questions MUST be COMPLETELY DIFFERENT from each other:\n- Question 1 (Q1): A high-level overview, aim, or context question.\n- Question 2 (Q2): A deep dive, technical specifics, trade-offs, or \"how you built it\" question.\n\nOnce you have asked 2 questions for a topic, MOVE ON immediately to the next topic.\nNEVER repeat a question. NEVER revisit a previous topic. Once a topic is done, it is closed forever.\n\nTOPIC PROGRESSION (Ensure you cover their resume/profile fully):\n1. PROJECT OR EXPERIENCE ROLE / AIM: Key project/experience aim and their specific role. (Q1: Overview, Q2: Deep Dive)\n2. PROFILE / RESUME EXPERIENCE 1: A specific major claim or skill from their background. (Q1: Overview, Q2: Technical Dive)\n3. PROFILE / RESUME EXPERIENCE 2: A different diverse experience or project from their background. (Q1: Overview, Q2: Trade-offs/Challenges)\n4. CULTURE & VALUES: Reflection on ethics, work culture, or lessons learned. (Q1: Scenario, Q2: Reflection)\n\nANSWER REACTIONS (CRITICAL RULES):\n1. GOOD ANSWER (>60% accurate/deep): Give brief, basic praise (e.g., \"Great insight,\" \"That makes sense,\" \"Excellent point\"), then ask the next question.\n2. RUBBISH/VAGUE ANSWER: Give NO reaction (neutral tone). Simply acknowledge (\"Understood\", \"Moving on\") and immediately ask the NEXT question. Do NOT teach, correct, or lecture them.\n3. \"I DON'T KNOW\": If the candidate says they don't know or can't answer, DO NOT get stuck. Accept it neutrally (\"Not a problem\", \"Fair enough\") and immediately move to the NEXT question or topic. Do not probe further on that specific topic if they don't know.\n\nINTERVIEW STYLE:\n- SKIP GENERIC WARM-UPS. Dive straight into Topic 1.\n- ASK ONE QUESTION AT A TIME. DO NOT ask multi-part questions.\n- Focus on decisions, failures, and concrete examples with metrics.\n- Maintain a fast pace.\n\nIMPORTANT: Respond in plain English. Do NOT output JSON. This is a natural conversation."

/-- The 13-minute critical time warning (brain.py line 296). -/
def time_warning_13 : String :=
  "[CRITICAL TIME WARNING] We are at the 13-minute mark (2 mins left). If you haven't yet, ask ONE final question. If the candidate just answered your final question, you MUST say 'Thank you for your time', provide a brief positive closing, and say Goodbye."

/-- The 10-minute time check (brain.py line 298). -/
def time_check_10 : String :=
  "[TIME CHECK] You have 5 minutes left. Start moving toward conclusion."

/-- `Brain._build_conversation_messages` (brain.py lines 283-308): static
persona prompt, optional strategy brief, optional job context, an
elapsed-time directive, the accumulated history, the dynamic topic
directive, then the user's input. -/
def build_conversation_messages (st : BrainState) (user_input : String)
    (elapsed_time : Rat) : List Msg :=
  [("system", static_system_prompt)]
    ++ (if st.interview_strategy ≠ "" then
          [("system", "[EXPERT PROFILE & STRATEGY]\n" ++ st.interview_strategy)]
        else [])
    ++ (match st.job_context_str with
        | some c =>
          [("system", "[DOMAIN KNOWLEDGE / JOB CONTEXT]\nUse this context to ask specific, grounded questions:\n" ++ c)]
        | none => [])
    ++ (if elapsed_time > 780 then [("system", time_warning_13)]
        else if elapsed_time > 600 then [("system", time_check_10)]
        else [])
    ++ st.conversation_history
    ++ (let dynamic_cmd := get_dynamic_topic_instruction st.question_count
        if dynamic_cmd ≠ "" then [("system", dynamic_cmd)] else [])
    ++ [("user", user_input)]

/-- The exhaustion message raised when every candidate failed
(brain.py line 226); `\\n` is the two-character sequence backslash-n,
exactly as in the Python source. -/
def all_models_failed_msg (error_log : List String) (avail : String) : String :=
  "All models failed. Details: \\n" ++ String.intercalate "\\n" error_log ++
    "\\n\\n[DEBUG] Available Deployments in your Azure Resource: " ++ avail

/-- The apology returned when generation fails (brain.py line 246). -/
def apology_message : String :=
  "I apologize, I'm having a technical issue. Could you please repeat that?"

/-- Observable outcome of `Brain.generate_spoken_response`: the spoken text,
the updated Brain state, and the candidate-loop trace. -/
structure GenResult where
  text : String
  state : BrainState
  attempted : List String
  events : List (String × CallShape)
  winner : Option String
deriving DecidableEq, Repr

/-- `Brain.generate_spoken_response` (brain.py lines 145-246): run the
candidate loop; on success strip/JSON-unwrap the text, append the exchange to
history and increment the question counter; on exhaustion store the
diagnostic in `last_error` and return the fixed apology (no history append,
no counter increment). -/
def generate_spoken_response (env : ModelEnv) (st : BrainState)
    (user_input : String) (elapsed_time : Rat) : GenResult :=
  let messages := build_conversation_messages st user_input elapsed_time
  let mtu := model_to_use st
  let r := runCandidates env messages (check_models mtu)
  match r.winner with
  | some (m, raw) =>
    let spoken0 := pyStrip raw
    let spoken :=
      if strStartsWith (pyLStrip spoken0) "\x7b" && strContains spoken0 "response_text" then
        (env.jsonExtract spoken0).getD spoken0
      else spoken0
    { text := spoken,
      state := { st with
        conversation_history :=
          st.conversation_history ++ [("user", user_input), ("assistant", spoken)],
        question_count := st.question_count + 1 },
      attempted := r.attempted, events := r.events, winner := some m }
  | none =>
    { text := apology_message,
      state := { st with
        last_error := some (all_models_failed_msg r.error_log env.listModelsStr) },
      attempted := r.attempted, events := r.events, winner := none }

/-- The hard-coded fallback closing statement (brain.py line 264). -/
def closing_fallback : String :=
  "Thank you for your time today. This concludes our interview. We will be in touch soon. Goodbye!"

/-- `Brain.generate_closing_message` (brain.py lines 248-264): one call to
gpt-4o-mini; any exception yields the fixed fallback text.  No Brain state
is touched. -/
def generate_closing_message (env : ModelEnv) (user_input : String) : String :=
  (env.closingCall user_input).getD closing_fallback

/-- Outcome of `Brain.analyze_answer`: the score record and the models it
attempted (always exactly the one configured analysis model). -/
structure ScoreResult where
  analysis : Analysis
  attempted : List String
deriving DecidableEq, Repr

/-- The analysis model choice (brain.py line 403):
`os.getenv("AZURE_OPENAI_ANALYSIS_MODEL", self.deployment_name)`. -/
def analysis_model_of (env : ModelEnv) (st : BrainState) : String :=
  env.analysisModelEnvVar.getD st.deployment_name

/-- `Brain.analyze_answer` (brain.py lines 344-414): a single JSON-mode call
against the configured analysis model; on exception, empty content or parse
failure the fixed neutral record is substituted.  There is no candidate loop
here. -/
def analyze_answer (env : ModelEnv) (st : BrainState) (user_input : String) :
    ScoreResult :=
  let analysis_model := analysis_model_of env st
  match env.analysisCall analysis_model user_input with
  | some a => ⟨a, [analysis_model]⟩
  | none => ⟨get_empty_analysis, [analysis_model]⟩

/-- The strike-1 warning text (brain.py line 69). -/
def first_warning_message : String :=
  "I need to keep this conversation professional. Please refrain from using inappropriate language. This is your first warning."

/-- The strike-1 score record (brain.py line 70). -/
def warning_analysis : Analysis :=
  { overall_score := 0, red_flags := ["Inappropriate language"],
    depth_score := 1, thinking_score := 1, fit_score := 1 }

/-- The strike-2 termination text (brain.py line 75). -/
def conduct_termination_message : String :=
  "I'm ending this interview due to continued unprofessional behavior. Thank you."

/-- The strike-2 score record (brain.py line 76). -/
def conduct_analysis : Analysis :=
  { overall_score := 0, red_flags := ["Terminated for conduct"],
    depth_score := 1, thinking_score := 1, fit_score := 1 }

/-- The hard time-limit closing text (brain.py line 83). -/
def time_limit_message : String :=
  "We've reached our time limit. Thank you for your time today. You'll hear back from us soon."

/-- The hard time-limit score record (brain.py line 84). -/
def time_limit_analysis : Analysis :=
  { overall_score := 0, note := some "Interview completed on time",
    depth_score := 3, thinking_score := 3, fit_score := 3 }

/-- The dict returned by `Brain.handle_user_input`. -/
structure HandleResult where
  spoken_response : String
  analysis : Analysis
  terminate : Bool
  warning_issued : Bool
  phase : String
deriving DecidableEq, Repr

/-- `Brain.handle_user_input`'s return value together with the successor
Brain state and a trace of external generation/scoring activity:
`genAttempted`/`genEvents` are the dialogue candidate-loop trace (empty when
no generation call was made), `closingAttempted` records whether the
closing-message call site ran, `scoreAttempted` lists the models tried by
the scoring call (empty when no scoring call was made). -/
structure HandleOutcome where
  result : HandleResult
  state : BrainState
  genAttempted : List String
  genEvents : List (String × CallShape)
  closingAttempted : Bool
  scoreAttempted : List String
deriving DecidableEq, Repr

/-- The early-closing phrase test (brain.py line 127):
`"thank you" in r.lower() or "goodbye" in r.lower() or "hear back" in r.lower()`. -/
def contains_closing_phrase (s : String) : Bool :=
  strContains (strLower s) "thank you" || strContains (strLower s) "goodbye" ||
    strContains (strLower s) "hear back"

/-- `Brain.handle_user_input` (brain.py lines 60-143), checks in source
order: abuse (strike 1 warns, strike ≥ 2 terminates), the hard time limit
(> 890 s), curriculum exhaustion (question count ≥ 8: closing-only
generation plus a scoring call), and otherwise a standard turn: dialogue
generation, scoring, phase update, and the early-closing override when
elapsed > 600 s and the response sounds like a goodbye. -/
def handle_user_input (env : ModelEnv) (st : BrainState) (user_input : String)
    (elapsed_time : Rat) : HandleOutcome :=
  if detect_abuse user_input then
    let st1 := { st with strike_count := st.strike_count + 1 }
    if st1.strike_count = 1 then
      { result := { spoken_response := first_warning_message,
                    analysis := warning_analysis, terminate := false,
                    warning_issued := true, phase := "WARNING" },
        state := st1, genAttempted := [], genEvents := [],
        closingAttempted := false, scoreAttempted := [] }
    else
      { result := { spoken_response := conduct_termination_message,
                    analysis := conduct_analysis, terminate := true,
                    warning_issued := false, phase := "TERMINATED" },
        state := st1, genAttempted := [], genEvents := [],
        closingAttempted := false, scoreAttempted := [] }
  else if elapsed_time > 890 then
    { result := { spoken_response := time_limit_message,
                  analysis := time_limit_analysis, terminate := true,
                  warning_issued := false, phase := "TERMINATED" },
      state := st, genAttempted := [], genEvents := [],
      closingAttempted := false, scoreAttempted := [] }
  else if 8 ≤ st.question_count then
    let closing_message := generate_closing_message env user_input
    let sc := analyze_answer env st user_input
    { result := { spoken_response := closing_message, analysis := sc.analysis,
                  terminate := true, warning_issued := false,
                  phase := "TERMINATED" },
      state := st, genAttempted := [], genEvents := [],
      closingAttempted := true, scoreAttempted := sc.attempted }
  else
    let g := generate_spoken_response env st user_input elapsed_time
    let sc := analyze_answer env g.state user_input
    let phase1 :=
      if g.state.question_count = 1 then "OPENING"
      else if g.state.question_count < 8 then "QUESTIONS"
      else "CLOSING"
    let st2 := { g.state with interview_phase := phase1 }
    if 600 < elapsed_time ∧ contains_closing_phrase g.text = true then
      { result := { spoken_response := g.text, analysis := sc.analysis,
                    terminate := true, warning_issued := false,
                    phase := "TERMINATED" },
        state := st2, genAttempted := g.attempted, genEvents := g.events,
        closingAttempted := false, scoreAttempted := sc.attempted }
    else
      { result := { spoken_response := g.text, analysis := sc.analysis,
                    terminate := false, warning_issued := false,
                    phase := st2.interview_phase },
        state := st2, genAttempted := g.attempted, genEvents := g.events,
        closingAttempted := false, scoreAttempted := sc.attempted }

/-! ## The turn orchestrator (`src/src/core/orchestrator.py`) -/

/-- One transcript entry (orchestrator.py lines 86-87). -/
structure TranscriptEntry where
  role : String
  text : String
  timestamp : Rat
deriving DecidableEq, Repr

/-- The orchestrator's session state (orchestrator.py `__init__`,
lines 11-23): the Brain's own state is held separately where needed. -/
structure OrchState where
  transcript : List TranscriptEntry := []
  scores : List Analysis := []
  phase : String := "READY"
  start_time : Option Rat := none
  final_score : Nat := 0
  last_error : Option String := none
deriving DecidableEq, Repr

/-- `Orchestrator.start_interview` (orchestrator.py lines 26-30): records
the start timestamp and clears transcript and scores.  (It does not reset
`final_score` or `last_error`; in the application a fresh `Orchestrator` is
constructed for each session before this is called.) -/
def start_interview (os : OrchState) (now : Rat) : OrchState :=
  { os with
    start_time := some now
    phase := "ACTIVE"
    transcript := []
    scores := [] }

/-- Result of the speech-to-text collaborator as seen by the orchestrator
(orchestrator.py lines 36-40): an exception, or a transcription text
(possibly empty). -/
inductive TranscriptionResult where
  | fail (msg : String)
  | ok (text : String)
deriving DecidableEq, Repr

/-- What the orchestrator reads off the Brain call: the result dict and the
Brain's `last_error` attribute afterwards (Feature 34,
orchestrator.py lines 58-62). -/
structure BrainOut where
  result : HandleResult
  brainLastError : Option String := none
deriving DecidableEq, Repr

/-- Package the embedded Brain as the callable the orchestrator invokes
(`self.brain.handle_user_input`); it never raises. -/
def brainOf (env : ModelEnv) (bst : BrainState) :
    String → Rat → Except String BrainOut :=
  fun user_text elapsed =>
    let o := handle_user_input env bst user_text elapsed
    .ok { result := o.result, brainLastError := o.state.last_error }

/-- `elapsed_time = time.time() - self.start_time if self.start_time else 0`
(orchestrator.py line 33). -/
def elapsedOf (os : OrchState) (now : Rat) : Rat :=
  match os.start_time with
  | some t0 => now - t0
  | none => 0

/-- Fixed message for empty transcriptions (orchestrator.py line 43). -/
def didnt_catch_message : String := "I didn't catch that. Could you repeat?"

/-- Fixed message for transcription exceptions (orchestrator.py line 46). -/
def trouble_hearing_message : String := "I'm having trouble hearing you. Please try again."

/-- Fixed message for Brain exceptions (orchestrator.py line 75). -/
def technical_issue_message : String :=
  "I'm having a technical issue. Please check the System Logs below for details."

/-- `Orchestrator.run_interview_turn` (orchestrator.py lines 32-99).
`transcription` is the outcome of the speech-to-text call, `brainCall` the
dialogue state machine (an `Except` since `self.brain.handle_user_input`
may raise), `speakerAudio` the best-effort text-to-speech outcome.  Returns
the `(user_text, ai_text, ai_audio, False)` tuple and the updated session
state. -/
def run_interview_turn (os : OrchState) (now : Rat)
    (transcription : TranscriptionResult)
    (brainCall : String → Rat → Except String BrainOut)
    (speakerAudio : Option (List Nat)) :
    (Option String × String × Option (List Nat) × Bool) × OrchState :=
  let elapsed_time : Rat := elapsedOf os now
  match transcription with
  | .fail _ => ((none, trouble_hearing_message, none, false), os)
  | .ok user_text =>
    if user_text = "" then
      ((none, didnt_catch_message, none, false), os)
    else
      match brainCall user_text elapsed_time with
      | .error e =>
        ((some user_text, technical_issue_message, none, false),
         { os with last_error := some ("[Brain Error] " ++ e) })
      | .ok b =>
        let ai_text := b.result.spoken_response
        let os1 := { os with phase := b.result.phase }
        let os2 := match b.brainLastError with
          | some be => { os1 with last_error := some ("[Brain Internal] " ++ be) }
          | none => os1
        let ai_audio := speakerAudio
        let os3 := { os2 with transcript := os2.transcript ++
          [TranscriptEntry.mk "user" user_text elapsed_time,
           TranscriptEntry.mk "ai" ai_text elapsed_time] }
        let os4 := { os3 with scores := os3.scores ++ [b.result.analysis] }
        let os5 :=
          if os4.scores = [] then os4
          else { os4 with final_score :=
            ((os4.scores.map (fun s => s.overall_score)).sum) / os4.scores.length }
        let os6 := if b.result.terminate then { os5 with phase := "TERMINATED" } else os5
        ((some user_text, ai_text, ai_audio, false), os6)

/-! ## Derived per-candidate views of the fallback loop (used to state C3) -/

/-- Whether a `CallResult` is an error. -/
def CallResult.isErr : CallResult → Bool
  | .ok _ => false
  | .err _ => true

/-- The net outcome of one candidate inside the loop: the standard call,
with the reduced retry substituted when the standard call fails with an
unsupported-parameter-shaped error. -/
def candidateOutcome (env : ModelEnv) (messages : List Msg) (m : String) : CallResult :=
  match env.standardCall m messages with
  | .ok t => .ok t
  | .err e => if isParamError e then env.reducedCall m messages else .err e

/-- The `error_log` entry recorded for a failed candidate. -/
def candidateErrEntry (env : ModelEnv) (messages : List Msg) (m : String) : String :=
  m ++ ": " ++ (match candidateOutcome env messages m with
                | .err e => e
                | .ok _ => "")

/-- The individual calls the loop issues for one candidate. -/
def candidateEvents (env : ModelEnv) (messages : List Msg) (m : String) :
    List (String × CallShape) :=
  match env.standardCall m messages with
  | .ok _ => [(m, .standard)]
  | .err e => if isParamError e then [(m, .standard), (m, .reduced)] else [(m, .standard)]

/-! ## Session driver (used to state C6) -/

/-- The inputs consumed by one `run_interview_turn` call. -/
structure TurnInput where
  now : Rat
  transcription : TranscriptionResult
  brainCall : String → Rat → Except String BrainOut
  speakerAudio : Option (List Nat)

/-- Fold a sequence of turns through the orchestrator. -/
def runTurns : List TurnInput → OrchState → OrchState
  | [], os => os
  | t :: rest, os =>
    runTurns rest (run_interview_turn os t.now t.transcription t.brainCall t.speakerAudio).2

/-- The truncated-mean aggregate the spec prescribes for `final_score`:
`floor(mean(overall_score_i))` (natural-number division is exactly the
integer-truncated mean of non-negative scores), and 0 for no records. -/
def scoreAgg (l : List Analysis) : Nat :=
  if l = [] then 0 else (l.map (fun s => s.overall_score)).sum / l.length

/-! ## Topic-plan abstraction (used to state C7) -/

/-- The explicit topic marker appearing in a directive. -/
def topicTag (t : Nat) : String := "TOPIC " ++ toString t

/-- The explicit question-role marker appearing in a directive. -/
def roleTag (q : Nat) : String := "Question " ++ toString q

/-- Which of the four topics a directive mentions. -/
def topicsMentioned (i : Nat) : List Nat :=
  [1, 2, 3, 4].filter (fun t => strContains (get_dynamic_topic_instruction i) (topicTag t))

/-- Which of the two question roles a directive mentions. -/
def rolesMentioned (i : Nat) : List Nat :=
  [1, 2].filter (fun q => strContains (get_dynamic_topic_instruction i) (roleTag q))

/-! ## Concrete environments and states used by witnesses and counterexamples -/

/-- A benign environment: every model call succeeds with fixed texts. -/
def envOK : ModelEnv :=
  { standardCall := fun _ _ => .ok "Understood. Can you walk me through your main project?"
    reducedCall := fun _ _ => .ok "Understood. Can you walk me through your main project?"
    analysisCall := fun _ _ =>
      some { depth_score := 4, thinking_score := 4, fit_score := 4, overall_score := 80 }
    jsonExtract := fun _ => none
    closingCall := fun _ => some "Thank you for joining today. Goodbye!"
    analysisModelEnvVar := none
    listModelsStr := "[]" }

/-- The spec's resilient-invocation scenario: candidate A fails with a
non-parameter error, B fails the standard call with a parameter-shaped error
but succeeds on the reduced retry, C would succeed. -/
def envABC : ModelEnv :=
  { standardCall := fun m _ =>
      if m = "model-A" then .err "404 model not found"
      else if m = "model-B" then .err "Unsupported parameter: max_tokens"
      else .ok "c-wins"
    reducedCall := fun m _ => if m = "model-B" then .ok "b-wins" else .err "unreached"
    analysisCall := fun _ _ => none
    jsonExtract := fun _ => none
    closingCall := fun _ => none
    analysisModelEnvVar := none
    listModelsStr := "[]" }

/-- An environment where the preferred deployment is down (404) but the
first Azure fallback works, and the scoring call's single model fails:
dialogue generation recovers via the candidate list while scoring cannot. -/
def envSplit : ModelEnv :=
  { standardCall := fun m _ =>
      if m = "gpt-4o" then .err "404 deployment not found" else .ok "Noted. What was your role?"
    reducedCall := fun _ _ => .err "unreached"
    analysisCall := fun _ _ => none
    jsonExtract := fun _ => none
    closingCall := fun _ => none
    analysisModelEnvVar := none
    listModelsStr := "[]" }

/-- An environment whose generated dialogue text sounds like a goodbye. -/
def envClose : ModelEnv :=
  { standardCall := fun _ _ => .ok "Thank you for your time today. You will hear back from us. Goodbye!"
    reducedCall := fun _ _ => .err "unreached"
    analysisCall := fun _ _ =>
      some { depth_score := 4, thinking_score := 4, fit_score := 4, overall_score := 70 }
    jsonExtract := fun _ => none
    closingCall := fun _ => none
    analysisModelEnvVar := none
    listModelsStr := "[]" }

/-- The Brain state as constructed by `Brain.__init__` for an Azure
deployment named gpt-4o. -/
def st0 : BrainState := { provider := "azure", deployment_name := "gpt-4o" }

/-- `st0` after both abusive calls of the two-strike scenario. -/
def stAfterTwoStrikes : BrainState :=
  (handle_user_input envOK
    (handle_user_input envOK st0 "you are a stupid idiot" 100).state
    "you are a stupid idiot" 150).state

/-- `st0` with the full curriculum consumed. -/
def st8 : BrainState := { st0 with question_count := 8 }

/-- A dialogue state machine that always raises. -/
def brainBoom : String → Rat → Except String BrainOut :=
  fun _ _ => .error "boom"

/-- A freshly started session. -/
def osStarted : OrchState := start_interview {} 0

/-- A mid-session orchestrator state holding one 80-point score record
(its `final_score` satisfies the truncated-mean invariant). -/
def osPrev : OrchState :=
  { start_time := some 0
    scores := [{ depth_score := 4, thinking_score := 4, fit_score := 4, overall_score := 80 }]
    final_score := 80
    transcript := [TranscriptEntry.mk "user" "hi" 1, TranscriptEntry.mk "ai" "Tell me more." 1]
    phase := "ACTIVE" }

/-! ## Helper lemmas shared by several claims -/

/-- The scoring call always attempts exactly the one configured analysis
model. -/
theorem analyze_answer_attempted_eq (env : ModelEnv) (st : BrainState) (u : String) :
    (analyze_answer env st u).attempted = [analysis_model_of env st] := by
  unfold analyze_answer
  cases h : env.analysisCall (analysis_model_of env st) u <;> simp [h]

/-- A failed scoring call yields the fixed neutral record. -/
theorem analyze_answer_failure_default (env : ModelEnv) (st : BrainState) (u : String)
    (h : env.analysisCall (analysis_model_of env st) u = none) :
    (analyze_answer env st u).analysis = get_empty_analysis := by
  unfold analyze_answer
  simp [h]

/-- A successful scoring call returns the parsed record unchanged. -/
theorem analyze_answer_success (env : ModelEnv) (st : BrainState) (u : String)
    (a : Analysis) (h : env.analysisCall (analysis_model_of env st) u = some a) :
    (analyze_answer env st u).analysis = a := by
  unfold analyze_answer
  simp [h]

/-- Unfolding of `handle_user_input` on an abusive call past the first
strike. -/
theorem handle_abusive_second_strike (env : ModelEnv) (st : BrainState)
    (u : String) (e : Rat) (h1 : 1 ≤ st.strike_count) (h2 : detect_abuse u = true) :
    handle_user_input env st u e =
      { result := { spoken_response := conduct_termination_message,
                    analysis := conduct_analysis, terminate := true,
                    warning_issued := false, phase := "TERMINATED" },
        state := { st with strike_count := st.strike_count + 1 },
        genAttempted := [], genEvents := [],
        closingAttempted := false, scoreAttempted := [] } := by
  unfold handle_user_input
  rw [if_pos h2, if_neg (by simp; omega)]

/-! ## C1 -/

/-- C1 counterexample: drive a session to two strikes (second call reports
`terminate=true`, phase `TERMINATED`), then send non-abusive text: the next
`handle_input` call runs a full standard turn — it returns
`terminate=false`, phase `OPENING`, performs a generation call and
increments the question counter.  The strike counter is not consulted
again, so the claimed brain-level permanence of `TERMINATED` is false. -/
theorem terminated_not_absorbing_counterexample :
    stAfterTwoStrikes.strike_count = 2 ∧
    (handle_user_input envOK
      (handle_user_input envOK st0 "you are a stupid idiot" 100).state
      "you are a stupid idiot" 150).result.phase = "TERMINATED" ∧
    (handle_user_input envOK stAfterTwoStrikes "hello" 200).result.terminate = false ∧
    (handle_user_input envOK stAfterTwoStrikes "hello" 200).result.phase = "OPENING" ∧
    (handle_user_input envOK stAfterTwoStrikes "hello" 200).genAttempted = ["gpt-4o"] ∧
    (handle_user_input envOK stAfterTwoStrikes "hello" 200).state.question_count =
      stAfterTwoStrikes.question_count + 1 := by
  decide

/-- C1 (amended): once the strike counter is at least 1, any further
abusive call returns `terminate=true` and phase `TERMINATED`, makes no
generation or scoring call, leaves the question counter unchanged and
increments the strike counter (so there is no un-strike mechanism); the
permanence of `TERMINATED` for **non-abusive** later input is not enforced
by `handle_input` itself but relies on the UI not calling it again after
`terminate=true`. -/
theorem second_strike_terminates (env : ModelEnv) (st : BrainState)
    (u : String) (e : Rat) (h1 : 1 ≤ st.strike_count) (h2 : detect_abuse u = true) :
    (handle_user_input env st u e).result.terminate = true ∧
    (handle_user_input env st u e).result.phase = "TERMINATED" ∧
    (handle_user_input env st u e).result.spoken_response = conduct_termination_message ∧
    (handle_user_input env st u e).genAttempted = [] ∧
    (handle_user_input env st u e).scoreAttempted = [] ∧
    (handle_user_input env st u e).closingAttempted = false ∧
    (handle_user_input env st u e).state.question_count = st.question_count ∧
    (handle_user_input env st u e).state.strike_count = st.strike_count + 1 := by
  rw [handle_abusive_second_strike env st u e h1 h2]
  exact ⟨rfl, rfl, rfl, rfl, rfl, rfl, rfl, rfl⟩

/-- C1 witness: the amended theorem applied at strike count 1 and the
abusive input "you are a stupid idiot". -/
theorem second_strike_terminates_witness :
    (1 ≤ ({ st0 with strike_count := 1 } : BrainState).strike_count) ∧
    detect_abuse "you are a stupid idiot" = true ∧
    (handle_user_input envOK { st0 with strike_count := 1 } "you are a stupid idiot" 150).result.terminate = true ∧
    (handle_user_input envOK { st0 with strike_count := 1 } "you are a stupid idiot" 150).result.phase = "TERMINATED" := by
  refine ⟨by decide, by decide, ?_, ?_⟩
  · exact (second_strike_terminates envOK { st0 with strike_count := 1 }
      "you are a stupid idiot" 150 (by decide) (by decide)).1
  · exact (second_strike_terminates envOK { st0 with strike_count := 1 }
      "you are a stupid idiot" 150 (by decide) (by decide)).2.1

/-! ## C2 -/

/-- C2 counterexample: the abuse check runs before the hard time limit.
With no prior strikes, the abusive input "you are stupid" at
`elapsed_seconds = 900 > 890` returns the first-strike warning:
`terminate=false` and phase `WARNING`, not `TERMINATED`. -/
theorem time_limit_claim_counterexample :
    detect_abuse "you are stupid" = true ∧
    (890 : Rat) < 900 ∧
    (handle_user_input envOK st0 "you are stupid" 900).result.terminate = false ∧
    (handle_user_input envOK st0 "you are stupid" 900).result.phase = "WARNING" := by
  decide

/-- C2 (amended): for input that the abuse detector does not flag,
`handle_input` with `elapsed_seconds > 890` returns the fixed time-limit
closing message with `terminate=true` and phase `TERMINATED`, regardless of
question count and of the strike counter, makes no generation, closing or
scoring call, and leaves the Brain state unchanged.  (When the input is
abusive the abuse check takes priority: a first strike returns a WARNING
with `terminate=false` even past the limit.) -/
theorem hard_time_limit_terminates (env : ModelEnv) (st : BrainState)
    (user_input : String) (elapsed_time : Rat)
    (habuse : detect_abuse user_input = false) (htime : 890 < elapsed_time) :
    handle_user_input env st user_input elapsed_time =
      { result := { spoken_response := time_limit_message,
                    analysis := time_limit_analysis, terminate := true,
                    warning_issued := false, phase := "TERMINATED" },
        state := st, genAttempted := [], genEvents := [],
        closingAttempted := false, scoreAttempted := [] } := by
  unfold handle_user_input
  rw [if_neg (by simp [habuse]), if_pos htime]

/-- C2 witness: the amended theorem at question count 8, strike count 1 and
`elapsed_seconds = 900`. -/
theorem hard_time_limit_terminates_witness :
    handle_user_input envOK { st0 with question_count := 8, strike_count := 1 } "hello" 900 =
      { result := { spoken_response := time_limit_message,
                    analysis := time_limit_analysis, terminate := true,
                    warning_issued := false, phase := "TERMINATED" },
        state := { st0 with question_count := 8, strike_count := 1 },
        genAttempted := [], genEvents := [],
        closingAttempted := false, scoreAttempted := [] } :=
  hard_time_limit_terminates envOK { st0 with question_count := 8, strike_count := 1 }
    "hello" 900 (by decide) (by decide)

/-! ## C4 -/

/-- C4: with the question counter at 8 or more and neither the abuse check
nor the hard time limit applying, `handle_input` produces the closing-only
generation result (no candidate-loop generation call), still runs the
scoring call on the final answer — so the returned score record is the
parsed record or, on scoring failure, the populated neutral default — and
returns `terminate=true` with phase `TERMINATED`, leaving the Brain state
unchanged. -/
theorem curriculum_exhaustion_closing_turn (env : ModelEnv) (st : BrainState)
    (u : String) (e : Rat) (habuse : detect_abuse u = false)
    (htime : ¬ 890 < e) (hcount : 8 ≤ st.question_count) :
    handle_user_input env st u e =
      { result := { spoken_response := generate_closing_message env u,
                    analysis := (analyze_answer env st u).analysis,
                    terminate := true, warning_issued := false,
                    phase := "TERMINATED" },
        state := st, genAttempted := [], genEvents := [],
        closingAttempted := true,
        scoreAttempted := [analysis_model_of env st] } := by
  unfold handle_user_input
  rw [if_neg (by simp [habuse]), if_neg htime, if_pos hcount]
  simp [analyze_answer_attempted_eq]

/-- C4 witness: the theorem at question count 8 with a benign environment;
the closing call and the scoring call both succeed. -/
theorem curriculum_exhaustion_closing_turn_witness :
    handle_user_input envOK st8 "my final answer" 100 =
      { result := { spoken_response := "Thank you for joining today. Goodbye!",
                    analysis := { depth_score := 4, thinking_score := 4,
                                  fit_score := 4, overall_score := 80 },
                    terminate := true, warning_issued := false,
                    phase := "TERMINATED" },
        state := st8, genAttempted := [], genEvents := [],
        closingAttempted := true, scoreAttempted := ["gpt-4o"] } :=
  (curriculum_exhaustion_closing_turn envOK st8 "my final answer" 100
    (by decide) (by decide) (by decide)).trans (by decide)

/-! ## C5 -/

/-- C5 counterexample: with the preferred deployment down (404) and the
next Azure fallback up, the dialogue generation call tries two candidates
and succeeds on the second, while the per-answer scoring call tries only
the single configured analysis model and, when that fails, substitutes the
neutral default instead of falling back — the two call sites do not use the
candidate list identically. -/
theorem scoring_no_fallback_counterexample :
    (handle_user_input envSplit st0 "hello" 100).genAttempted =
      ["gpt-4o", "gpt4-extract-updated"] ∧
    (handle_user_input envSplit st0 "hello" 100).scoreAttempted = ["gpt-4o"] ∧
    (handle_user_input envSplit st0 "hello" 100).scoreAttempted ≠
      (handle_user_input envSplit st0 "hello" 100).genAttempted ∧
    (handle_user_input envSplit st0 "hello" 100).result.spoken_response =
      "Noted. What was your role?" ∧
    (handle_user_input envSplit st0 "hello" 100).result.analysis = get_empty_analysis := by
  decide

/-- C5 (amended): the ordered candidate list is used only by the dialogue
generation call; the scoring call makes exactly one attempt against the
configured analysis model (the `AZURE_OPENAI_ANALYSIS_MODEL` setting,
defaulting to the deployment name), returning the parsed record on success
and the fixed neutral default on failure, with no multi-model fallback. -/
theorem scoring_single_model (env : ModelEnv) (st : BrainState) (u : String) :
    (analyze_answer env st u).attempted = [analysis_model_of env st] ∧
    (env.analysisCall (analysis_model_of env st) u = none →
      (analyze_answer env st u).analysis = get_empty_analysis) ∧
    (∀ a : Analysis, env.analysisCall (analysis_model_of env st) u = some a →
      (analyze_answer env st u).analysis = a) :=
  ⟨analyze_answer_attempted_eq env st u,
   fun h => analyze_answer_failure_default env st u h,
   fun a h => analyze_answer_success env st u a h⟩

/-- C5 witness: the amended theorem at a concrete state whose scoring call
fails: one attempted model, neutral default substituted. -/
theorem scoring_single_model_witness :
    (analyze_answer envSplit st0 "hello").attempted = ["gpt-4o"] ∧
    (analyze_answer envSplit st0 "hello").analysis = get_empty_analysis := by
  refine ⟨(scoring_single_model envSplit st0 "hello").1.trans (by decide), ?_⟩
  exact (scoring_single_model envSplit st0 "hello").2.1 (by decide)

/-! ## C7 -/

/-- C7: the topic directive is a pure function of the question count:
indices 0-1 mention exactly topic 1 (with roles Question 1 then Question 2),
2-3 exactly topic 2, 4-5 exactly topic 3, 6-7 exactly topic 4 (each even
index role 1, each odd index role 2), no two consecutive indices share the
same (topic, role) pair, and every index ≥ 8 yields the generic
final-question fallback. -/
theorem topic_directive_pure_function :
    (∀ i : Nat, i < 8 →
      topicsMentioned i = [i / 2 + 1] ∧ rolesMentioned i = [i % 2 + 1]) ∧
    (∀ i : Nat, i + 1 < 8 →
      (topicsMentioned i, rolesMentioned i) ≠
        (topicsMentioned (i + 1), rolesMentioned (i + 1))) ∧
    (∀ i : Nat, 8 ≤ i → get_dynamic_topic_instruction i = final_question_fallback) := by
  refine ⟨?_, ?_, ?_⟩
  · intro i hi
    interval_cases i <;> exact ⟨by decide, by decide⟩
  · intro i hi
    have hb : i < 7 := by omega
    interval_cases i <;> decide
  · intro i hi
    unfold get_dynamic_topic_instruction
    split_ifs <;> first | rfl | omega

/-- C7 witness: the theorem applied at indices 0, 1 and 9. -/
theorem topic_directive_pure_function_witness :
    (topicsMentioned 0 = [1] ∧ rolesMentioned 0 = [1]) ∧
    (topicsMentioned 1 = [1] ∧ rolesMentioned 1 = [2]) ∧
    get_dynamic_topic_instruction 9 = final_question_fallback :=
  ⟨topic_directive_pure_function.1 0 (by decide),
   topic_directive_pure_function.1 1 (by decide),
   topic_directive_pure_function.2.2 9 (by decide)⟩

/-! ## C8 -/

/-- Unfolding of `handle_user_input` on a standard turn (no abuse, within
the hard time limit, curriculum not exhausted). -/
theorem standard_turn_unfold (env : ModelEnv) (st : BrainState) (u : String)
    (e : Rat) (h1 : detect_abuse u = false) (h2 : ¬ 890 < e)
    (h3 : st.question_count < 8) :
    handle_user_input env st u e =
      (let g := generate_spoken_response env st u e
       let sc := analyze_answer env g.state u
       let phase1 :=
         if g.state.question_count = 1 then "OPENING"
         else if g.state.question_count < 8 then "QUESTIONS"
         else "CLOSING"
       let st2 := { g.state with interview_phase := phase1 }
       if 600 < e ∧ contains_closing_phrase g.text = true then
         { result := { spoken_response := g.text, analysis := sc.analysis,
                       terminate := true, warning_issued := false,
                       phase := "TERMINATED" },
           state := st2, genAttempted := g.attempted, genEvents := g.events,
           closingAttempted := false, scoreAttempted := sc.attempted }
       else
         { result := { spoken_response := g.text, analysis := sc.analysis,
                       terminate := false, warning_issued := false,
                       phase := st2.interview_phase },
           state := st2, genAttempted := g.attempted, genEvents := g.events,
           closingAttempted := false, scoreAttempted := sc.attempted }) := by
  unfold handle_user_input
  rw [if_neg (by simp [h1]), if_neg h2, if_neg (by omega)]

/-- C8: on a standard turn, the spoken response is the generated text; if
`elapsed_seconds > 600` and that text contains one of the closing phrases
("thank you", "goodbye", "hear back", case-insensitively), `handle_input`
returns `terminate=true` and phase `TERMINATED` although the question
counter is below 8; if `elapsed_seconds ≤ 600` or no phrase occurs, it
returns `terminate=false`. -/
theorem early_closing_heuristic (env : ModelEnv) (st : BrainState) (u : String)
    (e : Rat) (h1 : detect_abuse u = false) (h2 : ¬ 890 < e)
    (h3 : st.question_count < 8) :
    (handle_user_input env st u e).result.spoken_response =
      (generate_spoken_response env st u e).text ∧
    (600 < e →
      contains_closing_phrase (generate_spoken_response env st u e).text = true →
      (handle_user_input env st u e).result.terminate = true ∧
      (handle_user_input env st u e).result.phase = "TERMINATED") ∧
    ((¬ 600 < e ∨ contains_closing_phrase (generate_spoken_response env st u e).text = false) →
      (handle_user_input env st u e).result.terminate = false) := by
  rw [standard_turn_unfold env st u e h1 h2 h3]
  by_cases hc : 600 < e ∧ contains_closing_phrase (generate_spoken_response env st u e).text = true
  · refine ⟨by simp [hc], fun _ _ => by simp [hc], fun hpre => ?_⟩
    cases hpre with
    | inl h => exact absurd hc.1 h
    | inr h => rw [hc.2] at h; exact Bool.noConfusion h
  · exact ⟨by simp [hc], fun h6 hph => absurd ⟨h6, hph⟩ hc, fun _ => by simp [hc]⟩

/-- C8 witness: with a generator that answers with a goodbye at 700 s the
turn terminates; with a neutral generator at 700 s it does not. -/
theorem early_closing_heuristic_witness :
    (handle_user_input envClose st0 "my answer" 700).result.terminate = true ∧
    (handle_user_input envClose st0 "my answer" 700).result.phase = "TERMINATED" ∧
    (handle_user_input envOK st0 "my answer" 700).result.terminate = false := by
  refine ⟨?_, ?_, ?_⟩
  · exact ((early_closing_heuristic envClose st0 "my answer" 700 (by decide) (by decide)
      (by decide)).2.1 (by decide) (by decide)).1
  · exact ((early_closing_heuristic envClose st0 "my answer" 700 (by decide) (by decide)
      (by decide)).2.1 (by decide) (by decide)).2
  · exact (early_closing_heuristic envOK st0 "my answer" 700 (by decide) (by decide)
      (by decide)).2.2 (Or.inr (by decide))

/-! ## C3 -/

/-- A candidate whose net outcome is a response stops the loop at once. -/
theorem runCandidates_cons_ok (env : ModelEnv) (messages : List Msg)
    (m t : String) (rest : List String)
    (h : candidateOutcome env messages m = .ok t) :
    runCandidates env messages (m :: rest) =
      ⟨some (m, t), [], [m], candidateEvents env messages m⟩ := by
  unfold candidateOutcome at h
  cases hstd : env.standardCall m messages with
  | ok t0 =>
    rw [hstd] at h
    injection h with h
    subst h
    simp [runCandidates, candidateEvents, hstd]
  | err e =>
    rw [hstd] at h
    dsimp only at h
    by_cases hp : isParamError e = true
    · rw [if_pos hp] at h
      simp [runCandidates, candidateEvents, hstd, hp, h]
    · rw [if_neg hp] at h
      exact absurd h (by simp)

/-- A candidate whose net outcome is an error contributes its log entry and
its calls, and the loop continues with the remaining candidates. -/
theorem runCandidates_cons_fail (env : ModelEnv) (messages : List Msg)
    (m : String) (rest : List String)
    (h : (candidateOutcome env messages m).isErr = true) :
    runCandidates env messages (m :: rest) =
      ⟨(runCandidates env messages rest).winner,
        candidateErrEntry env messages m :: (runCandidates env messages rest).error_log,
        m :: (runCandidates env messages rest).attempted,
        candidateEvents env messages m ++ (runCandidates env messages rest).events⟩ := by
  cases hstd : env.standardCall m messages with
  | ok t0 =>
    exfalso
    unfold candidateOutcome at h
    rw [hstd] at h
    simp [CallResult.isErr] at h
  | err e =>
    by_cases hp : isParamError e = true
    · cases hred : env.reducedCall m messages with
      | ok t0 =>
        exfalso
        unfold candidateOutcome at h
        rw [hstd] at h
        dsimp only at h
        rw [if_pos hp, hred] at h
        simp [CallResult.isErr] at h
      | err e2 =>
        simp [runCandidates, candidateEvents, candidateErrEntry, candidateOutcome,
          hstd, hp, hred]
    · simp [runCandidates, candidateEvents, candidateErrEntry, candidateOutcome,
        hstd, hp]

/-- C3: the resilient generation loop iterates the candidate list in order.
Per candidate it first issues the standard call and, exactly when that call
fails with an error whose lowercased text contains "unsupported",
"parameter" or "max_tokens", retries the same candidate with the reduced
call (`candidateOutcome`/`candidateEvents` package this per-candidate
behaviour).  If every candidate in front of `m` fails and `m`'s net outcome
is a response `t`, the loop returns `(m, t)`, has attempted exactly the
failing candidates followed by `m` (no later candidate), and logged one
error string per failed candidate in order.  If all candidates fail, it
returns no winner and carries the ordered per-candidate error strings. -/
theorem resilient_invocation (env : ModelEnv) (messages : List Msg) :
    (∀ (pre post : List String) (m t : String),
      (∀ p ∈ pre, (candidateOutcome env messages p).isErr = true) →
      candidateOutcome env messages m = .ok t →
      runCandidates env messages (pre ++ m :: post) =
        { winner := some (m, t),
          error_log := pre.map (candidateErrEntry env messages),
          attempted := pre ++ [m],
          events := (pre ++ [m]).flatMap (candidateEvents env messages) }) ∧
    (∀ ms : List String,
      (∀ p ∈ ms, (candidateOutcome env messages p).isErr = true) →
      runCandidates env messages ms =
        { winner := none,
          error_log := ms.map (candidateErrEntry env messages),
          attempted := ms,
          events := ms.flatMap (candidateEvents env messages) }) := by
  constructor
  · intro pre post m t
    induction pre with
    | nil =>
      intro _ hm
      simpa using runCandidates_cons_ok env messages m t post hm
    | cons p pre ih =>
      intro hpre hm
      rw [List.cons_append,
        runCandidates_cons_fail env messages p _ (hpre p (by simp)),
        ih (fun q hq => hpre q (by simp [hq])) hm]
      simp
  · intro ms
    induction ms with
    | nil => intro _; rfl
    | cons p rest ih =>
      intro hall
      rw [runCandidates_cons_fail env messages p rest (hall p (by simp)),
        ih (fun q hq => hall q (by simp [hq]))]
      simp

/-- C3 witness: the spec's [A, B, C] scenario — A fails with a
non-parameter error, B's standard call is rejected for parameters but its
reduced retry succeeds: B wins, C is never attempted, and the log holds
exactly A's error. -/
theorem resilient_invocation_witness :
    runCandidates envABC [("user", "hi")] ["model-A", "model-B", "model-C"] =
      { winner := some ("model-B", "b-wins"),
        error_log := ["model-A: 404 model not found"],
        attempted := ["model-A", "model-B"],
        events := [("model-A", CallShape.standard), ("model-B", CallShape.standard),
                   ("model-B", CallShape.reduced)] } :=
  ((resilient_invocation envABC [("user", "hi")]).1 ["model-A"] ["model-C"]
    "model-B" "b-wins" (by decide) (by decide)).trans (by decide)

/-! ## C6 -/

/-- One orchestrator turn preserves the truncated-mean invariant on
`final_score`: short-circuited turns leave scores and score untouched, and
a completed turn recomputes the score over the appended record list. -/
theorem run_turn_preserves_mean (os : OrchState) (t : TurnInput)
    (h : os.final_score = scoreAgg os.scores) :
    (run_interview_turn os t.now t.transcription t.brainCall t.speakerAudio).2.final_score =
      scoreAgg (run_interview_turn os t.now t.transcription t.brainCall t.speakerAudio).2.scores := by
  unfold run_interview_turn
  cases htr : t.transcription with
  | fail m => simpa using h
  | ok u =>
    by_cases hu : u = ""
    · simpa [hu] using h
    · cases hbc : t.brainCall u (elapsedOf os t.now) with
      | error e => simpa [hu, hbc] using h
      | ok b =>
        cases hbe : b.brainLastError <;> cases hterm : b.result.terminate <;>
          simp [hu, hbc, hbe, hterm, scoreAgg]

/-- The invariant propagates along any turn sequence. -/
theorem runTurns_preserves_mean (turns : List TurnInput) (os : OrchState)
    (h : os.final_score = scoreAgg os.scores) :
    (runTurns turns os).final_score = scoreAgg (runTurns turns os).scores := by
  induction turns generalizing os with
  | nil => exact h
  | cons t rest ih => exact ih _ (run_turn_preserves_mean os t h)

/-- C6: in any session (a fresh orchestrator, `start_interview`, then any
sequence of turns), `final_score` always equals the integer-truncated mean
of the `overall_score` values of the score records appended so far
(`scoreAgg`: natural division of the sum by the count), and equals 0 while
no score records exist.  Since this holds after every prefix of the turn
sequence, the score is recomputed correctly after each new record. -/
theorem final_score_is_truncated_mean (turns : List TurnInput) (t0 : Rat) :
    (runTurns turns (start_interview {} t0)).final_score =
      scoreAgg (runTurns turns (start_interview {} t0)).scores :=
  runTurns_preserves_mean turns _ (by simp [start_interview, scoreAgg])

/-! ## C9 -/

/-- On an abusive call the Brain returns a score record with
`overall_score = 0` while making no scoring and no generation call. -/
theorem handle_abusive_no_calls (env : ModelEnv) (st : BrainState)
    (u : String) (e : Rat) (h : detect_abuse u = true) :
    (handle_user_input env st u e).result.analysis.overall_score = 0 ∧
    (handle_user_input env st u e).scoreAttempted = [] ∧
    (handle_user_input env st u e).genAttempted = [] := by
  unfold handle_user_input
  rw [if_pos h]
  dsimp only
  by_cases h1 : st.strike_count + 1 = 1
  · rw [if_pos h1]
    exact ⟨rfl, rfl, rfl⟩
  · rw [if_neg h1]
    exact ⟨rfl, rfl, rfl⟩

/-- A completed (non-short-circuited) orchestrator turn appends the
returned record and recomputes `final_score` over the appended list. -/
theorem run_turn_ok_scores (os : OrchState) (now : Rat) (u : String)
    (audio : Option (List Nat)) (bc : String → Rat → Except String BrainOut)
    (b : BrainOut) (hu : ¬ u = "") (hbc : bc u (elapsedOf os now) = .ok b) :
    (run_interview_turn os now (.ok u) bc audio).2.scores =
      os.scores ++ [b.result.analysis] ∧
    (run_interview_turn os now (.ok u) bc audio).2.final_score =
      ((os.scores ++ [b.result.analysis]).map (fun s => s.overall_score)).sum /
        (os.scores ++ [b.result.analysis]).length := by
  unfold run_interview_turn
  constructor <;>
    (cases hbe : b.brainLastError <;> cases hterm : b.result.terminate <;>
      simp [hu, hbc, hbe, hterm])

/-- C9: an abuse-detected turn (strike 1 or strike 2) yields an analysis
record with `overall_score = 0` without any scoring call; the orchestrator
appends that record to the session's scores, recomputes `final_score` as
the truncated mean over the extended list — the zero entering the mean —
and the aggregated score never increases as a result. -/
theorem abusive_turn_zero_score (env : ModelEnv) (bst : BrainState)
    (os : OrchState) (now : Rat) (u : String) (audio : Option (List Nat))
    (habuse : detect_abuse u = true) (hu : ¬ u = "")
    (hinv : os.final_score = scoreAgg os.scores) :
    (handle_user_input env bst u (elapsedOf os now)).result.analysis.overall_score = 0 ∧
    (handle_user_input env bst u (elapsedOf os now)).scoreAttempted = [] ∧
    (run_interview_turn os now (.ok u) (brainOf env bst) audio).2.scores =
      os.scores ++ [(handle_user_input env bst u (elapsedOf os now)).result.analysis] ∧
    (run_interview_turn os now (.ok u) (brainOf env bst) audio).2.final_score =
      (os.scores.map (fun s => s.overall_score)).sum / (os.scores.length + 1) ∧
    (run_interview_turn os now (.ok u) (brainOf env bst) audio).2.final_score ≤
      os.final_score := by
  obtain ⟨hz, hsc, hgen⟩ := handle_abusive_no_calls env bst u (elapsedOf os now) habuse
  obtain ⟨hs, hf⟩ := run_turn_ok_scores os now u audio (brainOf env bst)
    { result := (handle_user_input env bst u (elapsedOf os now)).result,
      brainLastError := (handle_user_input env bst u (elapsedOf os now)).state.last_error }
    hu rfl
  have hf' : (run_interview_turn os now (.ok u) (brainOf env bst) audio).2.final_score =
      (os.scores.map (fun s => s.overall_score)).sum / (os.scores.length + 1) := by
    rw [hf]
    simp [hz]
  refine ⟨hz, hsc, hs, hf', ?_⟩
  rw [hf', hinv]
  rcases eq_or_ne os.scores [] with he | he
  · simp [he, scoreAgg]
  · unfold scoreAgg
    rw [if_neg he]
    exact Nat.div_le_div_left (Nat.le_succ _) (List.length_pos.mpr he)

/-- C9 witness: a first-strike abusive turn against a session holding one
80-point record drags the aggregated score from 80 down to 40. -/
theorem abusive_turn_zero_score_witness :
    (handle_user_input envOK st0 "you are a stupid idiot"
      (elapsedOf osPrev 100)).result.analysis.overall_score = 0 ∧
    (run_interview_turn osPrev 100 (.ok "you are a stupid idiot")
      (brainOf envOK st0) none).2.final_score = 40 ∧
    osPrev.final_score = 80 := by
  refine ⟨?_, ?_, by decide⟩
  · exact (abusive_turn_zero_score envOK st0 osPrev 100 "you are a stupid idiot" none
      (by decide) (by decide) (by decide)).1
  · exact ((abusive_turn_zero_score envOK st0 osPrev 100 "you are a stupid idiot" none
      (by decide) (by decide) (by decide)).2.2.2.1).trans (by decide)

/-! ## C10 -/

/-- C10: when the dialogue state machine raises during a turn, the
orchestrator returns the fixed technical-issue message, stores the
diagnostic (prefixed "[Brain Error] ") in `last_error`, and the session is
otherwise untouched: transcript, scores, `final_score` and phase are all
left exactly as they were (no appends, no recomputation). -/
theorem brain_exception_preserves_session (os : OrchState) (now : Rat)
    (u emsg : String) (audio : Option (List Nat))
    (f : String → Rat → Except String BrainOut)
    (hu : ¬ u = "") (hf : f u (elapsedOf os now) = .error emsg) :
    run_interview_turn os now (.ok u) f audio =
      ((some u, technical_issue_message, none, false),
       { os with last_error := some ("[Brain Error] " ++ emsg) }) := by
  unfold run_interview_turn
  simp [hu, hf]

/-- C10 witness: a raising Brain on a freshly started session at `now = 5`. -/
theorem brain_exception_preserves_session_witness :
    run_interview_turn osStarted 5 (.ok "hello") brainBoom none =
      ((some "hello", technical_issue_message, none, false),
       { osStarted with last_error := some "[Brain Error] boom" }) :=
  (brain_exception_preserves_session osStarted 5 "hello" "boom" none brainBoom
    (by decide) (by exact rfl)).trans (by decide)

end EB
